import Mathlib

/-!
Verification of the V2X network-simulation connectivity engine.

The definitions below are a shallow embedding of the JavaScript class
`VehicleSimulation` (geometry oracle, motion model, connectivity evaluator
and relay path finder).  Numeric values are modelled as rationals; the
only use the source makes of `Math.sqrt` is in comparisons
`calculateDistance(...) < range` with a positive range, which we encode
equivalently on squared distances.  DOM lookups that can fail (the
obstacle element) are modelled with `Option`.
-/

set_option maxRecDepth 8000

namespace V2X

/-- Axis-aligned rectangle, as produced by `getBoundingClientRect` for the
building element: position `(x, y)` and size `(w, h)`. -/
structure Rect where
  x : ℚ
  y : ℚ
  w : ℚ
  h : ℚ
deriving DecidableEq

/-- One vehicle record of `this.vehicles` (the DOM `element` field is
rendering-only and omitted). -/
structure Vehicle where
  id : String
  startX : ℚ
  startY : ℚ
  targetX : ℚ
  targetY : ℚ
  currentX : ℚ
  currentY : ℚ
  speed : ℚ
  direction : Int
deriving DecidableEq

/-- The squared Euclidean distance; `calculateDistance` in the source is
`Math.sqrt` of this quantity. -/
def calculateDistanceSq (x1 y1 x2 y2 : ℚ) : ℚ :=
  (x2 - x1) ^ 2 + (y2 - y1) ^ 2

/-- The source comparison `calculateDistance(x1, y1, x2, y2) < r`
(for the positive range constants of the source), encoded without the
square root: for `0 ≤ r`, `sqrt d ≤ r ↔ d ≤ r * r`. -/
def distLt (x1 y1 x2 y2 r : ℚ) : Bool :=
  decide (calculateDistanceSq x1 y1 x2 y2 < r * r)

/-- Source function `lineSegmentsIntersect(x1, y1, x2, y2, x3, y3, x4, y4)`: parametric
segment-segment intersection; returns `false` outright when the
determinant `denom` vanishes. -/
def lineSegmentsIntersect (x1 y1 x2 y2 x3 y3 x4 y4 : ℚ) : Bool :=
  let denom := (x1 - x2) * (y3 - y4) - (y1 - y2) * (x3 - x4)
  if denom = 0 then false
  else
    let t := ((x1 - x3) * (y3 - y4) - (y1 - y3) * (x3 - x4)) / denom
    let u := -((x1 - x2) * (y1 - y3) - (y1 - y2) * (x1 - x3)) / denom
    decide (0 ≤ t ∧ t ≤ 1 ∧ 0 ≤ u ∧ u ≤ 1)

/-- Source function `lineSegmentIntersectsRectangle`: the segment against each of the four
rectangle edges. -/
def lineSegmentIntersectsRectangle (x1 y1 x2 y2 rectX rectY rectW rectH : ℚ) : Bool :=
  let rectRight := rectX + rectW
  let rectBottom := rectY + rectH
  lineSegmentsIntersect x1 y1 x2 y2 rectX rectY rectRight rectY ||
  lineSegmentsIntersect x1 y1 x2 y2 rectRight rectY rectRight rectBottom ||
  lineSegmentsIntersect x1 y1 x2 y2 rectRight rectBottom rectX rectBottom ||
  lineSegmentsIntersect x1 y1 x2 y2 rectX rectBottom rectX rectY

/-- Source function `lineIntersectsRect`: fast reject when both endpoints lie strictly on
the same outer side of the rectangle, otherwise the detailed edge test. -/
def lineIntersectsRect (x1 y1 x2 y2 rectX rectY rectW rectH : ℚ) : Bool :=
  let rectRight := rectX + rectW
  let rectBottom := rectY + rectH
  if (x1 < rectX ∧ x2 < rectX) ∨ (x1 > rectRight ∧ x2 > rectRight) ∨
     (y1 < rectY ∧ y2 < rectY) ∨ (y1 > rectBottom ∧ y2 > rectBottom) then
    false
  else
    lineSegmentIntersectsRectangle x1 y1 x2 y2 rectX rectY rectW rectH

/-- Source function `isLineBlocked` with the building rectangle already read from the
document: occlusion of the segment by the building. -/
def isLineBlocked (building : Rect) (x1 y1 x2 y2 : ℚ) : Bool :=
  lineIntersectsRect x1 y1 x2 y2 building.x building.y building.w building.h

/-- Source function `isLineBlocked` including the DOM lookup of the building element:
`document.querySelector(".building")` yields `none` when the element is
absent, in which case `buildingElement.getBoundingClientRect()` throws a
TypeError — modelled as the computation producing no boolean (`none`). -/
def isLineBlockedOpt (building : Option Rect) (x1 y1 x2 y2 : ℚ) : Option Bool :=
  match building with
  | none => none
  | some b => some (isLineBlocked b x1 y1 x2 y2)

/-- Source function `generateVehicleLinkId`: canonical id of an unordered vehicle pair,
smaller id first under lexicographic string order. -/
def generateVehicleLinkId (vehicle1Id vehicle2Id : String) : String :=
  if vehicle1Id < vehicle2Id then
    vehicle1Id ++ "-" ++ vehicle2Id
  else
    vehicle2Id ++ "-" ++ vehicle1Id

/-- The per-vehicle body of `animate`: vehicles `vehicle1`/`vehicle2`
move left (`currentX -= speed`, wrapping to `startX` once strictly past
`targetX`), all others move right with the symmetric rule. -/
def animateVehicle (vehicle : Vehicle) : Vehicle :=
  if vehicle.id = "vehicle1" ∨ vehicle.id = "vehicle2" then
    let x := vehicle.currentX - vehicle.speed
    { vehicle with currentX := if x < vehicle.targetX then vehicle.startX else x }
  else
    let x := vehicle.currentX + vehicle.speed
    { vehicle with currentX := if x > vehicle.targetX then vehicle.startX else x }

/-- Whether one `animate` step of this vehicle takes the wrap branch
(reset of `currentX` to `startX`). -/
def animateWrapped (vehicle : Vehicle) : Bool :=
  if vehicle.id = "vehicle1" ∨ vehicle.id = "vehicle2" then
    decide (vehicle.currentX - vehicle.speed < vehicle.targetX)
  else
    decide (vehicle.currentX + vehicle.speed > vehicle.targetX)

/-- Iterate `animate` on a single vehicle for `n` ticks, counting how
often the wrap branch fired. -/
def runSteps (vehicle : Vehicle) : Nat → Vehicle × Nat
  | 0 => (vehicle, 0)
  | n + 1 =>
      let r := runSteps vehicle n
      (animateVehicle r.1, r.2 + (if animateWrapped r.1 then 1 else 0))

/-- A communication link of the tick output: its canonical id and the
occlusion flag. -/
structure Link where
  id : String
  blocked : Bool
deriving DecidableEq

/-- A two-hop relay path emitted by `findAlternativePaths`. -/
structure RelayPath where
  relayVehicle : String
  links : List String
deriving DecidableEq

/-- Source function `findAlternativePaths(baseStationX, baseStationY, redCar)`: scan all
vehicles, skip the red car (`vehicle2`) itself, and emit a relay path for
each vehicle within range of both the red car and the base station whose
two hop segments are both unblocked.  The range constant 500 and the
`+40`/`+20` vehicle-centre offsets are those of the source. -/
def findAlternativePaths (building : Rect) (baseStationX baseStationY : ℚ)
    (redCar : Vehicle) (vehicles : List Vehicle) : List RelayPath :=
  vehicles.filterMap fun vehicle =>
    if vehicle.id = "vehicle2" then none
    else if distLt (redCar.currentX + 40) (redCar.currentY + 20)
              (vehicle.currentX + 40) (vehicle.currentY + 20) 500 &&
            distLt baseStationX baseStationY
              (vehicle.currentX + 40) (vehicle.currentY + 20) 500 then
      if !(isLineBlocked building (redCar.currentX + 40) (redCar.currentY + 20)
             (vehicle.currentX + 40) (vehicle.currentY + 20)) &&
         !(isLineBlocked building baseStationX baseStationY
             (vehicle.currentX + 40) (vehicle.currentY + 20)) then
        some { relayVehicle := vehicle.id,
               links := [generateVehicleLinkId "vehicle2" vehicle.id,
                         "bs-" ++ vehicle.id] }
      else none
    else none

/-- The vehicle-to-vehicle double loop of `simulateV2XCommunication`
(`i < j` pairs): a link is produced only for pairs strictly within range
500, with its occlusion flag. -/
def v2vLinkPass (building : Rect) : List Vehicle → List Link
  | [] => []
  | vehicle1 :: rest =>
      (rest.filterMap fun vehicle2 =>
        if distLt (vehicle1.currentX + 40) (vehicle1.currentY + 20)
             (vehicle2.currentX + 40) (vehicle2.currentY + 20) 500 then
          some { id := generateVehicleLinkId vehicle1.id vehicle2.id,
                 blocked := isLineBlocked building
                   (vehicle1.currentX + 40) (vehicle1.currentY + 20)
                   (vehicle2.currentX + 40) (vehicle2.currentY + 20) }
        else none) ++ v2vLinkPass building rest

/-- The connectivity part of one tick's output. -/
structure SimOutput where
  bsLinks : List Link
  v2vLinks : List Link
  activeConnections : Nat
deriving DecidableEq

/-- The connectivity evaluation of `simulateV2XCommunication` (the
always-visible variant): every vehicle gets exactly one base-station
link, with no range gating; vehicle-to-vehicle links are range-gated;
`activeConnections` counts the unblocked links of both classes. -/
def simulateV2XCommunication (building : Rect) (baseStationX baseStationY : ℚ)
    (vehicles : List Vehicle) : SimOutput :=
  let bsLinks : List Link := vehicles.map fun vehicle =>
    { id := "bs-" ++ vehicle.id,
      blocked := isLineBlocked building baseStationX baseStationY
        (vehicle.currentX + 40) (vehicle.currentY + 20) }
  let v2v := v2vLinkPass building vehicles
  { bsLinks := bsLinks
    v2vLinks := v2v
    activeConnections :=
      (bsLinks.filter fun l => !l.blocked).length +
      (v2v.filter fun l => !l.blocked).length }

/-- The base-station loop of `simulateV2XCommunication` threaded through
the fallible obstacle lookup: if any occlusion test throws (obstacle
element absent), the whole loop aborts with no output. -/
def bsLinkPassOpt (building : Option Rect) (baseStationX baseStationY : ℚ) :
    List Vehicle → Option (List Link)
  | [] => some []
  | vehicle :: rest =>
      match isLineBlockedOpt building baseStationX baseStationY
              (vehicle.currentX + 40) (vehicle.currentY + 20),
            bsLinkPassOpt building baseStationX baseStationY rest with
      | some b, some ls => some ({ id := "bs-" ++ vehicle.id, blocked := b } :: ls)
      | _, _ => none

/-- The vehicle of claim C2: lane start x 1200, target x 50, speed 2,
direction -1 (the `vehicle1` configuration of the source). -/
def wrapVehicle : Vehicle :=
  { id := "vehicle1", startX := 1200, startY := 180, targetX := 50, targetY := 180,
    currentX := 1200, currentY := 180, speed := 2, direction := -1 }

/-- A concrete vehicle used to instantiate the motion-step invariant. -/
def laneVehicle : Vehicle :=
  { id := "vehicle1", startX := 1200, startY := 180, targetX := 50, targetY := 180,
    currentX := 800, currentY := 180, speed := 2, direction := -1 }

/-- The four vehicles of the source constructor (speed 0.8). -/
def sceneVehicles : List Vehicle :=
  [{ id := "vehicle1", startX := 1200, startY := 180, targetX := 50, targetY := 180,
     currentX := 1200, currentY := 180, speed := 4/5, direction := -1 },
   { id := "vehicle2", startX := 800, startY := 180, targetX := 50, targetY := 180,
     currentX := 800, currentY := 180, speed := 4/5, direction := -1 },
   { id := "vehicle3", startX := 50, startY := 300, targetX := 1200, targetY := 300,
     currentX := 50, currentY := 300, speed := 4/5, direction := 1 },
   { id := "vehicle4", startX := 350, startY := 300, targetX := 1200, targetY := 300,
     currentX := 350, currentY := 300, speed := 4/5, direction := 1 }]

/-- A concrete obstacle rectangle for witness scenes. -/
def sceneBuilding : Rect :=
  { x := 500, y := 150, w := 100, h := 220 }

/-- A small obstacle far from all witness relay segments. -/
def relayBuilding : Rect :=
  { x := 0, y := 0, w := 1, h := 1 }

/-- The red car (distinguished vehicle) of the relay witness scene. -/
def relayRedCar : Vehicle :=
  { id := "vehicle2", startX := 800, startY := 180, targetX := 50, targetY := 180,
    currentX := 800, currentY := 180, speed := 4/5, direction := -1 }

/-- The relay candidate vehicle of the relay witness scene. -/
def relayOther : Vehicle :=
  { id := "vehicle3", startX := 50, startY := 300, targetX := 1200, targetY := 300,
    currentX := 700, currentY := 300, speed := 4/5, direction := 1 }

/-- The vehicle list of the relay witness scene. -/
def relayScene : List Vehicle :=
  [relayRedCar, relayOther]

/-! ### Helper lemmas about the geometry oracle -/

/-- A vanishing determinant makes `lineSegmentsIntersect` answer `false`. -/
theorem lineSegmentsIntersect_of_denom_eq_zero (x1 y1 x2 y2 x3 y3 x4 y4 : ℚ)
    (h : (x1 - x2) * (y3 - y4) - (y1 - y2) * (x3 - x4) = 0) :
    lineSegmentsIntersect x1 y1 x2 y2 x3 y3 x4 y4 = false := by
  simp only [lineSegmentsIntersect]
  rw [if_pos h]

/-- Swapping the first segment's endpoints does not change
`lineSegmentsIntersect`: the determinant flips sign, the parameter `t`
becomes `1 - t` and `u` is unchanged. -/
theorem lineSegmentsIntersect_swap (x1 y1 x2 y2 x3 y3 x4 y4 : ℚ) :
    lineSegmentsIntersect x1 y1 x2 y2 x3 y3 x4 y4 =
      lineSegmentsIntersect x2 y2 x1 y1 x3 y3 x4 y4 := by
  simp only [lineSegmentsIntersect]
  by_cases hd : (x1 - x2) * (y3 - y4) - (y1 - y2) * (x3 - x4) = 0
  · have hd2 : (x2 - x1) * (y3 - y4) - (y2 - y1) * (x3 - x4) = 0 := by
      linear_combination -hd
    rw [if_pos hd, if_pos hd2]
  · have hd2 : ¬ (x2 - x1) * (y3 - y4) - (y2 - y1) * (x3 - x4) = 0 := by
      intro h; exact hd (by linear_combination -h)
    rw [if_neg hd, if_neg hd2]
    have ht : ((x2 - x3) * (y3 - y4) - (y2 - y3) * (x3 - x4)) /
        ((x2 - x1) * (y3 - y4) - (y2 - y1) * (x3 - x4)) =
        1 - ((x1 - x3) * (y3 - y4) - (y1 - y3) * (x3 - x4)) /
        ((x1 - x2) * (y3 - y4) - (y1 - y2) * (x3 - x4)) := by
      field_simp
      ring
    have hu : -((x2 - x1) * (y2 - y3) - (y2 - y1) * (x2 - x3)) /
        ((x2 - x1) * (y3 - y4) - (y2 - y1) * (x3 - x4)) =
        -((x1 - x2) * (y1 - y3) - (y1 - y2) * (x1 - x3)) /
        ((x1 - x2) * (y3 - y4) - (y1 - y2) * (x3 - x4)) := by
      field_simp
      ring
    rw [ht, hu, decide_eq_decide]
    constructor <;> rintro ⟨h1, h2, h3, h4⟩ <;>
      exact ⟨by linarith, by linarith, h3, h4⟩

/-- A `true` answer of `lineSegmentsIntersect` yields parameters placing
one common point on both segments. -/
theorem lineSegmentsIntersect_exists_point (x1 y1 x2 y2 x3 y3 x4 y4 : ℚ)
    (h : lineSegmentsIntersect x1 y1 x2 y2 x3 y3 x4 y4 = true) :
    ∃ t u : ℚ, 0 ≤ t ∧ t ≤ 1 ∧ 0 ≤ u ∧ u ≤ 1 ∧
      x1 + t * (x2 - x1) = x3 + u * (x4 - x3) ∧
      y1 + t * (y2 - y1) = y3 + u * (y4 - y3) := by
  simp only [lineSegmentsIntersect] at h
  by_cases hd : (x1 - x2) * (y3 - y4) - (y1 - y2) * (x3 - x4) = 0
  · rw [if_pos hd] at h
    exact absurd h (by simp)
  · rw [if_neg hd, decide_eq_true_eq] at h
    obtain ⟨ht0, ht1, hu0, hu1⟩ := h
    refine ⟨_, _, ht0, ht1, hu0, hu1, ?_, ?_⟩
    · field_simp
      ring
    · field_simp
      ring

/-- A point moved along a segment stays below the endpoints' maximum. -/
theorem convex_combo_le_max (a b t : ℚ) (h0 : 0 ≤ t) (h1 : t ≤ 1) :
    a + t * (b - a) ≤ max a b := by
  rcases le_total a b with h | h
  · rw [max_eq_right h]
    nlinarith [mul_nonneg (sub_nonneg.mpr h1) (sub_nonneg.mpr h)]
  · rw [max_eq_left h]
    nlinarith [mul_nonneg h0 (sub_nonneg.mpr h)]

/-- A point moved along a segment stays above the endpoints' minimum. -/
theorem convex_combo_ge_min (a b t : ℚ) (h0 : 0 ≤ t) (h1 : t ≤ 1) :
    min a b ≤ a + t * (b - a) := by
  rcases le_total a b with h | h
  · rw [min_eq_left h]
    nlinarith [mul_nonneg h0 (sub_nonneg.mpr h)]
  · rw [min_eq_right h]
    nlinarith [mul_nonneg (sub_nonneg.mpr h1) (sub_nonneg.mpr h)]

/-- Segments strictly left of a vertical line cannot meet segments on or
right of it. -/
theorem lineSegmentsIntersect_sep_x_lt (x1 y1 x2 y2 x3 y3 x4 y4 c : ℚ)
    (h1 : x1 < c) (h2 : x2 < c) (h3 : c ≤ x3) (h4 : c ≤ x4) :
    lineSegmentsIntersect x1 y1 x2 y2 x3 y3 x4 y4 = false := by
  by_contra hne
  rw [← ne_eq, Bool.ne_false_iff] at hne
  obtain ⟨t, u, ht0, ht1, hu0, hu1, hx, _⟩ :=
    lineSegmentsIntersect_exists_point x1 y1 x2 y2 x3 y3 x4 y4 hne
  have e1 : x1 + t * (x2 - x1) ≤ max x1 x2 := convex_combo_le_max _ _ _ ht0 ht1
  have e2 : min x3 x4 ≤ x3 + u * (x4 - x3) := convex_combo_ge_min _ _ _ hu0 hu1
  have m1 : max x1 x2 < c := max_lt h1 h2
  have m2 : c ≤ min x3 x4 := le_min h3 h4
  rw [hx] at e1
  linarith

/-- Segments strictly right of a vertical line cannot meet segments on or
left of it. -/
theorem lineSegmentsIntersect_sep_x_gt (x1 y1 x2 y2 x3 y3 x4 y4 c : ℚ)
    (h1 : x1 > c) (h2 : x2 > c) (h3 : x3 ≤ c) (h4 : x4 ≤ c) :
    lineSegmentsIntersect x1 y1 x2 y2 x3 y3 x4 y4 = false := by
  by_contra hne
  rw [← ne_eq, Bool.ne_false_iff] at hne
  obtain ⟨t, u, ht0, ht1, hu0, hu1, hx, _⟩ :=
    lineSegmentsIntersect_exists_point x1 y1 x2 y2 x3 y3 x4 y4 hne
  have e1 : min x1 x2 ≤ x1 + t * (x2 - x1) := convex_combo_ge_min _ _ _ ht0 ht1
  have e2 : x3 + u * (x4 - x3) ≤ max x3 x4 := convex_combo_le_max _ _ _ hu0 hu1
  have m1 : c < min x1 x2 := lt_min h1 h2
  have m2 : max x3 x4 ≤ c := max_le h3 h4
  rw [hx] at e1
  linarith

/-- Segments strictly above a horizontal line (smaller y) cannot meet
segments on or below it. -/
theorem lineSegmentsIntersect_sep_y_lt (x1 y1 x2 y2 x3 y3 x4 y4 c : ℚ)
    (h1 : y1 < c) (h2 : y2 < c) (h3 : c ≤ y3) (h4 : c ≤ y4) :
    lineSegmentsIntersect x1 y1 x2 y2 x3 y3 x4 y4 = false := by
  by_contra hne
  rw [← ne_eq, Bool.ne_false_iff] at hne
  obtain ⟨t, u, ht0, ht1, hu0, hu1, _, hy⟩ :=
    lineSegmentsIntersect_exists_point x1 y1 x2 y2 x3 y3 x4 y4 hne
  have e1 : y1 + t * (y2 - y1) ≤ max y1 y2 := convex_combo_le_max _ _ _ ht0 ht1
  have e2 : min y3 y4 ≤ y3 + u * (y4 - y3) := convex_combo_ge_min _ _ _ hu0 hu1
  have m1 : max y1 y2 < c := max_lt h1 h2
  have m2 : c ≤ min y3 y4 := le_min h3 h4
  rw [hy] at e1
  linarith

/-- Segments strictly below a horizontal line (larger y) cannot meet
segments on or above it. -/
theorem lineSegmentsIntersect_sep_y_gt (x1 y1 x2 y2 x3 y3 x4 y4 c : ℚ)
    (h1 : y1 > c) (h2 : y2 > c) (h3 : y3 ≤ c) (h4 : y4 ≤ c) :
    lineSegmentsIntersect x1 y1 x2 y2 x3 y3 x4 y4 = false := by
  by_contra hne
  rw [← ne_eq, Bool.ne_false_iff] at hne
  obtain ⟨t, u, ht0, ht1, hu0, hu1, _, hy⟩ :=
    lineSegmentsIntersect_exists_point x1 y1 x2 y2 x3 y3 x4 y4 hne
  have e1 : min y1 y2 ≤ y1 + t * (y2 - y1) := convex_combo_ge_min _ _ _ ht0 ht1
  have e2 : y3 + u * (y4 - y3) ≤ max y3 y4 := convex_combo_le_max _ _ _ hu0 hu1
  have m1 : c < min y1 y2 := lt_min h1 h2
  have m2 : max y3 y4 ≤ c := max_le h3 h4
  rw [hy] at e1
  linarith

/-! ### Claim theorems -/

/-- C4.  Canonical link id symmetry: `generateVehicleLinkId` is symmetric
in its two arguments and always returns the lexicographically smaller id,
a dash, then the larger id. -/
theorem generateVehicleLinkId_symm_canonical (a b : String) :
    generateVehicleLinkId a b = generateVehicleLinkId b a ∧
    generateVehicleLinkId a b = min a b ++ "-" ++ max a b := by
  unfold generateVehicleLinkId
  rcases lt_trichotomy a b with h | rfl | h
  · rw [if_pos h, if_neg (not_lt.mpr h.le), min_eq_left h.le, max_eq_right h.le]
    exact ⟨rfl, rfl⟩
  · rw [if_neg (lt_irrefl a), min_self, max_self]
    exact ⟨rfl, rfl⟩
  · rw [if_neg (not_lt.mpr h.le), if_pos h, min_eq_right h.le, max_eq_left h.le]
    exact ⟨rfl, rfl⟩

/-- C5.  Occlusion symmetry: the segment-rectangle intersection test
gives the same boolean when the two segment endpoints are swapped. -/
theorem occlusion_symmetry (x1 y1 x2 y2 rectX rectY rectW rectH : ℚ) :
    lineIntersectsRect x1 y1 x2 y2 rectX rectY rectW rectH =
      lineIntersectsRect x2 y2 x1 y1 rectX rectY rectW rectH := by
  simp only [lineIntersectsRect, lineSegmentIntersectsRectangle]
  rw [lineSegmentsIntersect_swap x1 y1 x2 y2 rectX rectY (rectX + rectW) rectY,
      lineSegmentsIntersect_swap x1 y1 x2 y2 (rectX + rectW) rectY (rectX + rectW)
        (rectY + rectH),
      lineSegmentsIntersect_swap x1 y1 x2 y2 (rectX + rectW) (rectY + rectH) rectX
        (rectY + rectH),
      lineSegmentsIntersect_swap x1 y1 x2 y2 rectX (rectY + rectH) rectX rectY]
  exact if_congr (by tauto) rfl rfl

/-- C6.  Degenerate-geometry definition: when the determinant of the
parametric system is exactly zero (parallel or collinear segments,
including zero-length ones), `lineSegmentsIntersect` reports no
intersection. -/
theorem degenerate_geometry_no_intersection (x1 y1 x2 y2 x3 y3 x4 y4 : ℚ)
    (h : (x1 - x2) * (y3 - y4) - (y1 - y2) * (x3 - x4) = 0) :
    lineSegmentsIntersect x1 y1 x2 y2 x3 y3 x4 y4 = false :=
  lineSegmentsIntersect_of_denom_eq_zero x1 y1 x2 y2 x3 y3 x4 y4 h

/-- Witness for C6 at collinear overlapping horizontal segments
`(0,0)-(2,0)` and `(1,0)-(3,0)`. -/
theorem degenerate_geometry_no_intersection_witness :
    ((0:ℚ) - 2) * ((0:ℚ) - 0) - ((0:ℚ) - 0) * ((1:ℚ) - 3) = 0 ∧
    lineSegmentsIntersect 0 0 2 0 1 0 3 0 = false :=
  ⟨by norm_num, degenerate_geometry_no_intersection 0 0 2 0 1 0 3 0 (by norm_num)⟩

/-- C8 counterexample: the rectangle at `(0,0)` with width `0` and
height `2` has zero area, yet the horizontal segment `(-1,1)-(1,1)`
crossing its degenerate vertical edges is reported as intersecting. -/
theorem zero_area_not_sufficient :
    ((0:ℚ) * 2 = 0) ∧ lineSegmentIntersectsRectangle (-1) 1 1 1 0 0 0 2 = true := by
  constructor
  · norm_num
  · with_unfolding_all decide

/-- C8 amended.  When both the width and the height of the rectangle are
zero, all four edges are zero-length, every edge determinant vanishes and
`lineSegmentIntersectsRectangle` returns `false` for every segment. -/
theorem zero_size_never_intersects (x1 y1 x2 y2 rectX rectY : ℚ) :
    lineSegmentIntersectsRectangle x1 y1 x2 y2 rectX rectY 0 0 = false := by
  simp only [lineSegmentIntersectsRectangle]
  rw [lineSegmentsIntersect_of_denom_eq_zero x1 y1 x2 y2 rectX rectY (rectX + 0) rectY
        (by ring),
      lineSegmentsIntersect_of_denom_eq_zero x1 y1 x2 y2 (rectX + 0) rectY (rectX + 0)
        (rectY + 0) (by ring),
      lineSegmentsIntersect_of_denom_eq_zero x1 y1 x2 y2 (rectX + 0) (rectY + 0) rectX
        (rectY + 0) (by ring),
      lineSegmentsIntersect_of_denom_eq_zero x1 y1 x2 y2 rectX (rectY + 0) rectX rectY
        (by ring)]
  rfl

/-- C7.  Fast-reject precheck equivalence: for rectangles of non-negative
width and height, `lineIntersectsRect` (with the same-side fast reject)
agrees with the detailed edge test `lineSegmentIntersectsRectangle` on
every input. -/
theorem lineIntersectsRect_eq_detailed (x1 y1 x2 y2 rectX rectY rectW rectH : ℚ)
    (hw : 0 ≤ rectW) (hh : 0 ≤ rectH) :
    lineIntersectsRect x1 y1 x2 y2 rectX rectY rectW rectH =
      lineSegmentIntersectsRectangle x1 y1 x2 y2 rectX rectY rectW rectH := by
  simp only [lineIntersectsRect]
  split
  case isFalse hcond => rfl
  case isTrue hcond =>
    symm
    simp only [lineSegmentIntersectsRectangle]
    rcases hcond with ⟨h1, h2⟩ | ⟨h1, h2⟩ | ⟨h1, h2⟩ | ⟨h1, h2⟩
    · rw [lineSegmentsIntersect_sep_x_lt x1 y1 x2 y2 rectX rectY (rectX + rectW) rectY
            rectX h1 h2 le_rfl (by linarith),
          lineSegmentsIntersect_sep_x_lt x1 y1 x2 y2 (rectX + rectW) rectY (rectX + rectW)
            (rectY + rectH) rectX h1 h2 (by linarith) (by linarith),
          lineSegmentsIntersect_sep_x_lt x1 y1 x2 y2 (rectX + rectW) (rectY + rectH) rectX
            (rectY + rectH) rectX h1 h2 (by linarith) le_rfl,
          lineSegmentsIntersect_sep_x_lt x1 y1 x2 y2 rectX (rectY + rectH) rectX rectY
            rectX h1 h2 le_rfl le_rfl]
      rfl
    · rw [lineSegmentsIntersect_sep_x_gt x1 y1 x2 y2 rectX rectY (rectX + rectW) rectY
            (rectX + rectW) h1 h2 (by linarith) le_rfl,
          lineSegmentsIntersect_sep_x_gt x1 y1 x2 y2 (rectX + rectW) rectY (rectX + rectW)
            (rectY + rectH) (rectX + rectW) h1 h2 le_rfl le_rfl,
          lineSegmentsIntersect_sep_x_gt x1 y1 x2 y2 (rectX + rectW) (rectY + rectH) rectX
            (rectY + rectH) (rectX + rectW) h1 h2 le_rfl (by linarith),
          lineSegmentsIntersect_sep_x_gt x1 y1 x2 y2 rectX (rectY + rectH) rectX rectY
            (rectX + rectW) h1 h2 (by linarith) (by linarith)]
      rfl
    · rw [lineSegmentsIntersect_sep_y_lt x1 y1 x2 y2 rectX rectY (rectX + rectW) rectY
            rectY h1 h2 le_rfl le_rfl,
          lineSegmentsIntersect_sep_y_lt x1 y1 x2 y2 (rectX + rectW) rectY (rectX + rectW)
            (rectY + rectH) rectY h1 h2 le_rfl (by linarith),
          lineSegmentsIntersect_sep_y_lt x1 y1 x2 y2 (rectX + rectW) (rectY + rectH) rectX
            (rectY + rectH) rectY h1 h2 (by linarith) (by linarith),
          lineSegmentsIntersect_sep_y_lt x1 y1 x2 y2 rectX (rectY + rectH) rectX rectY
            rectY h1 h2 (by linarith) le_rfl]
      rfl
    · rw [lineSegmentsIntersect_sep_y_gt x1 y1 x2 y2 rectX rectY (rectX + rectW) rectY
            (rectY + rectH) h1 h2 (by linarith) (by linarith),
          lineSegmentsIntersect_sep_y_gt x1 y1 x2 y2 (rectX + rectW) rectY (rectX + rectW)
            (rectY + rectH) (rectY + rectH) h1 h2 (by linarith) le_rfl,
          lineSegmentsIntersect_sep_y_gt x1 y1 x2 y2 (rectX + rectW) (rectY + rectH) rectX
            (rectY + rectH) (rectY + rectH) h1 h2 le_rfl le_rfl,
          lineSegmentsIntersect_sep_y_gt x1 y1 x2 y2 rectX (rectY + rectH) rectX rectY
            (rectY + rectH) h1 h2 le_rfl (by linarith)]
      rfl

/-- Witness for C7: a rectangle of width and height `2` and a segment
strictly left of it. -/
theorem lineIntersectsRect_eq_detailed_witness :
    ((0:ℚ) ≤ 2 ∧ (0:ℚ) ≤ 2) ∧
    lineIntersectsRect (-5) 0 (-3) 1 0 0 2 2 =
      lineSegmentIntersectsRectangle (-5) 0 (-3) 1 0 0 2 2 :=
  ⟨⟨by norm_num, by norm_num⟩,
    lineIntersectsRect_eq_detailed (-5) 0 (-3) 1 0 0 2 2 (by norm_num) (by norm_num)⟩

/-- C2 counterexample: after 575 ticks the vehicle has never taken the
wrap branch and sits exactly at the target `x = 50`; the reset fires only
when the position is strictly below the target, so no wrap to 1200 has
happened yet. -/
theorem wrap_at_575_counterexample :
    ¬ 1 ≤ (runSteps wrapVehicle 575).2 ∧ (runSteps wrapVehicle 575).1.currentX = 50 := by
  with_unfolding_all decide

/-- C2 amended.  The reset is triggered by a position strictly below the
target, so the first wrap occurs on tick 576, at which point the vehicle
is back at the lane start 1200 having wrapped exactly once. -/
theorem wrap_at_576 :
    (runSteps wrapVehicle 576).2 = 1 ∧ (runSteps wrapVehicle 576).1.currentX = 1200 := by
  with_unfolding_all decide

/-- C3 counterexample: with the obstacle element absent, the occlusion
test does not return `false` — it produces no boolean at all (the
`getBoundingClientRect` call on the missing element throws). -/
theorem missing_obstacle_counterexample :
    ¬ isLineBlockedOpt none 0 0 1 1 = some false := by
  intro h
  exact Option.noConfusion h

/-- C3 amended.  When the obstacle element is absent, `isLineBlocked`
throws instead of degrading to "never blocks", and the per-vehicle
base-station connectivity loop of the tick aborts without output for any
non-empty vehicle list. -/
theorem missing_obstacle_throws :
    (∀ x1 y1 x2 y2 : ℚ, isLineBlockedOpt none x1 y1 x2 y2 = none) ∧
    (∀ (baseStationX baseStationY : ℚ) (vehicle : Vehicle) (rest : List Vehicle),
      bsLinkPassOpt none baseStationX baseStationY (vehicle :: rest) = none) := by
  constructor
  · intro x1 y1 x2 y2
    rfl
  · intro baseStationX baseStationY vehicle rest
    rfl

/-- C10.  Motion-step lane invariant: a non-negatively-sped vehicle whose
direction field matches its lane (leftward for `vehicle1`/`vehicle2`,
rightward otherwise) and whose current x lies in the closed interval
spanned by its start and target x stays in that interval after one
`animate` step — either advanced by `speed * direction` or reset exactly
to the lane start — with all other fields unchanged. -/
theorem animateVehicle_lane_invariant (v : Vehicle)
    (hspeed : 0 ≤ v.speed)
    (hdir : v.direction = if v.id = "vehicle1" ∨ v.id = "vehicle2" then -1 else 1)
    (hlo : min v.startX v.targetX ≤ v.currentX)
    (hhi : v.currentX ≤ max v.startX v.targetX) :
    (min v.startX v.targetX ≤ (animateVehicle v).currentX ∧
      (animateVehicle v).currentX ≤ max v.startX v.targetX) ∧
    ((animateVehicle v).currentX = v.currentX + v.speed * (v.direction : ℚ) ∨
      (animateVehicle v).currentX = v.startX) ∧
    (animateVehicle v).currentY = v.currentY ∧
    (animateVehicle v).speed = v.speed ∧
    (animateVehicle v).startX = v.startX ∧
    (animateVehicle v).startY = v.startY ∧
    (animateVehicle v).targetX = v.targetX ∧
    (animateVehicle v).targetY = v.targetY ∧
    (animateVehicle v).direction = v.direction ∧
    (animateVehicle v).id = v.id := by
  simp only [animateVehicle]
  split
  case isTrue hid =>
    rw [if_pos hid] at hdir
    split
    case isTrue hwrap =>
      exact ⟨⟨min_le_left _ _, le_max_left _ _⟩, Or.inr rfl, rfl, rfl, rfl, rfl, rfl,
        rfl, rfl, rfl⟩
    case isFalse hwrap =>
      push_neg at hwrap
      refine ⟨⟨le_trans (min_le_right _ _) hwrap, ?_⟩, Or.inl ?_, rfl, rfl, rfl, rfl,
        rfl, rfl, rfl, rfl⟩
      · exact le_trans (show v.currentX - v.speed ≤ v.currentX by linarith) hhi
      · rw [hdir]
        push_cast
        ring
  case isFalse hid =>
    rw [if_neg hid] at hdir
    split
    case isTrue hwrap =>
      exact ⟨⟨min_le_left _ _, le_max_left _ _⟩, Or.inr rfl, rfl, rfl, rfl, rfl, rfl,
        rfl, rfl, rfl⟩
    case isFalse hwrap =>
      push_neg at hwrap
      refine ⟨⟨le_trans hlo (show v.currentX ≤ v.currentX + v.speed by linarith),
        le_trans hwrap (le_max_right _ _)⟩,
        Or.inl ?_, rfl, rfl, rfl, rfl, rfl, rfl, rfl, rfl⟩
      rw [hdir]
      push_cast
      ring

/-- Witness for C10: the leftward vehicle at `x = 800` with its lane
`[50, 1200]`, speed 2. -/
theorem animateVehicle_lane_invariant_witness :
    (0 ≤ laneVehicle.speed ∧
      laneVehicle.direction =
        (if laneVehicle.id = "vehicle1" ∨ laneVehicle.id = "vehicle2" then -1 else 1) ∧
      min laneVehicle.startX laneVehicle.targetX ≤ laneVehicle.currentX ∧
      laneVehicle.currentX ≤ max laneVehicle.startX laneVehicle.targetX) ∧
    ((min laneVehicle.startX laneVehicle.targetX ≤ (animateVehicle laneVehicle).currentX ∧
        (animateVehicle laneVehicle).currentX ≤
          max laneVehicle.startX laneVehicle.targetX) ∧
      ((animateVehicle laneVehicle).currentX =
          laneVehicle.currentX + laneVehicle.speed * (laneVehicle.direction : ℚ) ∨
        (animateVehicle laneVehicle).currentX = laneVehicle.startX) ∧
      (animateVehicle laneVehicle).currentY = laneVehicle.currentY ∧
      (animateVehicle laneVehicle).speed = laneVehicle.speed ∧
      (animateVehicle laneVehicle).startX = laneVehicle.startX ∧
      (animateVehicle laneVehicle).startY = laneVehicle.startY ∧
      (animateVehicle laneVehicle).targetX = laneVehicle.targetX ∧
      (animateVehicle laneVehicle).targetY = laneVehicle.targetY ∧
      (animateVehicle laneVehicle).direction = laneVehicle.direction ∧
      (animateVehicle laneVehicle).id = laneVehicle.id) :=
  ⟨⟨by with_unfolding_all decide, by with_unfolding_all decide,
      by with_unfolding_all decide, by with_unfolding_all decide⟩,
    animateVehicle_lane_invariant laneVehicle (by with_unfolding_all decide)
      (by with_unfolding_all decide) (by with_unfolding_all decide)
      (by with_unfolding_all decide)⟩

/-- C1.  Relay validity: every relay path emitted by
`findAlternativePaths` names a relay vehicle from the node set that is
distinct from the distinguished red car, with both hop distances strictly
below the range threshold 500 and both hop segments unblocked by the
obstacle. -/
theorem findAlternativePaths_valid (building : Rect) (baseStationX baseStationY : ℚ)
    (redCar : Vehicle) (vehicles : List Vehicle) (p : RelayPath)
    (hred : redCar.id = "vehicle2")
    (hp : p ∈ findAlternativePaths building baseStationX baseStationY redCar vehicles) :
    p.relayVehicle ≠ redCar.id ∧
    ∃ w, w ∈ vehicles ∧ w.id = p.relayVehicle ∧
      distLt (redCar.currentX + 40) (redCar.currentY + 20)
        (w.currentX + 40) (w.currentY + 20) 500 = true ∧
      distLt baseStationX baseStationY (w.currentX + 40) (w.currentY + 20) 500 = true ∧
      isLineBlocked building (redCar.currentX + 40) (redCar.currentY + 20)
        (w.currentX + 40) (w.currentY + 20) = false ∧
      isLineBlocked building baseStationX baseStationY
        (w.currentX + 40) (w.currentY + 20) = false := by
  simp only [findAlternativePaths, List.mem_filterMap] at hp
  obtain ⟨w, hw, hfw⟩ := hp
  by_cases h2 : w.id = "vehicle2"
  · rw [if_pos h2] at hfw
    exact absurd hfw (by simp)
  · rw [if_neg h2] at hfw
    split at hfw
    · rename_i hd
      split at hfw
      · rename_i hb
        rw [Option.some.injEq] at hfw
        subst hfw
        rw [Bool.and_eq_true] at hd
        rw [Bool.and_eq_true, Bool.not_eq_true', Bool.not_eq_true'] at hb
        refine ⟨?_, w, hw, rfl, hd.1, hd.2, hb.1, hb.2⟩
        rw [hred]
        exact h2
      · exact absurd hfw (by simp)
    · exact absurd hfw (by simp)


/-- Witness for C1: a scene where the relay finder emits exactly the path
through `vehicle3`. -/
theorem findAlternativePaths_valid_witness :
    (relayRedCar.id = "vehicle2" ∧
      ({ relayVehicle := "vehicle3",
         links := ["vehicle2-vehicle3", "bs-vehicle3"] } : RelayPath) ∈
        findAlternativePaths relayBuilding 600 100 relayRedCar relayScene) ∧
    (({ relayVehicle := "vehicle3",
        links := ["vehicle2-vehicle3", "bs-vehicle3"] } : RelayPath).relayVehicle ≠
        relayRedCar.id ∧
      ∃ w, w ∈ relayScene ∧
        w.id = ({ relayVehicle := "vehicle3",
                  links := ["vehicle2-vehicle3", "bs-vehicle3"] } : RelayPath).relayVehicle ∧
        distLt (relayRedCar.currentX + 40) (relayRedCar.currentY + 20)
          (w.currentX + 40) (w.currentY + 20) 500 = true ∧
        distLt 600 100 (w.currentX + 40) (w.currentY + 20) 500 = true ∧
        isLineBlocked relayBuilding (relayRedCar.currentX + 40) (relayRedCar.currentY + 20)
          (w.currentX + 40) (w.currentY + 20) = false ∧
        isLineBlocked relayBuilding 600 100 (w.currentX + 40) (w.currentY + 20) = false) :=
  ⟨⟨rfl, by with_unfolding_all decide⟩,
    findAlternativePaths_valid relayBuilding 600 100 relayRedCar relayScene
      { relayVehicle := "vehicle3", links := ["vehicle2-vehicle3", "bs-vehicle3"] }
      rfl (by with_unfolding_all decide)⟩

/-- Appending after the fixed marker `bs-` is injective on link ids. -/
theorem bsId_inj (a b : String) : ("bs-" ++ a = "bs-" ++ b) ↔ a = b := by
  constructor
  · intro h
    have hd : ("bs-" ++ a).data = ("bs-" ++ b).data := by rw [h]
    rw [String.data_append, String.data_append] at hd
    exact String.ext (List.append_cancel_left hd)
  · intro h
    rw [h]

/-- C9.  Always-visible base-station links: in the non-range-gated
variant, the tick produces one base-station link per vehicle — with the
blocked flag equal to the occlusion test of that segment and no distance
condition — exactly one of which carries any given vehicle's id, and the
active-connection count is precisely the number of unblocked links. -/
theorem simulateV2X_bs_links (building : Rect) (baseStationX baseStationY : ℚ)
    (vehicles : List Vehicle) (v : Vehicle)
    (hnodup : (vehicles.map Vehicle.id).Nodup) (hv : v ∈ vehicles) :
    (simulateV2XCommunication building baseStationX baseStationY vehicles).bsLinks.length =
      vehicles.length ∧
    ({ id := "bs-" ++ v.id,
       blocked := isLineBlocked building baseStationX baseStationY
         (v.currentX + 40) (v.currentY + 20) } : Link) ∈
      (simulateV2XCommunication building baseStationX baseStationY vehicles).bsLinks ∧
    ((simulateV2XCommunication building baseStationX baseStationY vehicles).bsLinks.countP
        (fun l => l.id == "bs-" ++ v.id)) = 1 ∧
    (simulateV2XCommunication building baseStationX baseStationY vehicles).activeConnections =
      ((simulateV2XCommunication building baseStationX baseStationY vehicles).bsLinks.countP
        (fun l => !l.blocked)) +
      ((simulateV2XCommunication building baseStationX baseStationY vehicles).v2vLinks.countP
        (fun l => !l.blocked)) := by
  refine ⟨?_, ?_, ?_, ?_⟩
  · simp [simulateV2XCommunication]
  · simp only [simulateV2XCommunication]
    exact List.mem_map_of_mem _ hv
  · simp only [simulateV2XCommunication, List.countP_map]
    have hstep : vehicles.countP
        ((fun l : Link => l.id == "bs-" ++ v.id) ∘ fun vehicle =>
          ({ id := "bs-" ++ vehicle.id,
             blocked := isLineBlocked building baseStationX baseStationY
               (vehicle.currentX + 40) (vehicle.currentY + 20) } : Link)) =
        vehicles.countP (fun w => w.id == v.id) := by
      apply List.countP_congr
      intro w _
      simp only [Function.comp, beq_iff_eq]
      exact bsId_inj w.id v.id
    rw [hstep]
    have hcount : (vehicles.map Vehicle.id).count v.id = 1 :=
      List.count_eq_one_of_mem hnodup (List.mem_map_of_mem _ hv)
    rw [List.count, List.countP_map] at hcount
    exact hcount
  · simp [simulateV2XCommunication, List.countP_eq_length_filter]

/-- Witness for C9: the four-vehicle source scene with a concrete
obstacle and base-station position, instantiated at `vehicle2`. -/
theorem simulateV2X_bs_links_witness :
    ((sceneVehicles.map Vehicle.id).Nodup ∧
      ({ id := "vehicle2", startX := 800, startY := 180, targetX := 50, targetY := 180,
         currentX := 800, currentY := 180, speed := 4/5, direction := -1 } : Vehicle) ∈
        sceneVehicles) ∧
    ((simulateV2XCommunication sceneBuilding 615 100 sceneVehicles).bsLinks.length =
      sceneVehicles.length ∧
    ({ id := "bs-" ++ "vehicle2",
       blocked := isLineBlocked sceneBuilding 615 100 (800 + 40) (180 + 20) } : Link) ∈
      (simulateV2XCommunication sceneBuilding 615 100 sceneVehicles).bsLinks ∧
    ((simulateV2XCommunication sceneBuilding 615 100 sceneVehicles).bsLinks.countP
        (fun l => l.id == "bs-" ++ "vehicle2")) = 1 ∧
    (simulateV2XCommunication sceneBuilding 615 100 sceneVehicles).activeConnections =
      ((simulateV2XCommunication sceneBuilding 615 100 sceneVehicles).bsLinks.countP
        (fun l => !l.blocked)) +
      ((simulateV2XCommunication sceneBuilding 615 100 sceneVehicles).v2vLinks.countP
        (fun l => !l.blocked))) :=
  ⟨⟨by with_unfolding_all decide, by with_unfolding_all decide⟩,
    simulateV2X_bs_links sceneBuilding 615 100 sceneVehicles
      { id := "vehicle2", startX := 800, startY := 180, targetX := 50, targetY := 180,
        currentX := 800, currentY := 180, speed := 4/5, direction := -1 }
      (by with_unfolding_all decide) (by with_unfolding_all decide)⟩

end V2X
